import Mathlib

/-!
Shallow embedding of `scripts/ai_pr_summary.mjs`: a CI script that diffs a
pull request, asks a hosted LLM for a structured summary, and publishes the
rendered markdown as a PR comment.

External effects (the `git diff` subprocess, the LLM chain invocation, the
HTTP responses to the at most two `fetch` calls a run can make) are supplied
as oracle inputs in a `World`; the observable behaviour of the run (which
publisher calls were made with which markdown, whether diff collection and
generation happened, and the process exit) is returned as a `RunResult`.
-/

namespace AiPrSummary

/-- JS truthiness of an environment variable: `process.env.X` is `undefined`
when unset, and `!x` is `true` for both `undefined` and the empty string. -/
def truthy : Option String → Bool
  | none => false
  | some s => !s.isEmpty

/-- The environment variables the script reads. `none` models an unset
variable; `some s` a variable set to `s`. -/
structure Env where
  COHERE_API_KEY : Option String
  BASE_SHA : Option String
  HEAD_SHA : Option String
  GITHUB_TOKEN : Option String
  GITHUB_REPOSITORY : Option String
  PR_NUMBER : Option String
deriving DecidableEq, Repr

/-- JS `s.slice(0, n)`: the first `n` characters of `s` (all of `s` when it
is shorter). -/
def jsSlice (s : String) (n : Nat) : String :=
  String.mk (s.data.take n)

/-- Whitespace as removed by JS `String.prototype.trim`: tab, LF, VT, FF,
CR and space (the space-separator and BOM cases are irrelevant to diffs). -/
def jsWhitespace (c : Char) : Bool :=
  c = ' ' || c = '\t' || c = '\n' || c = '\r' || c = '\x0b' || c = '\x0c'

/-- JS `s.trim()`: strip leading and trailing whitespace. -/
def jsTrim (s : String) : String :=
  String.mk (((s.data.dropWhile jsWhitespace).reverse.dropWhile jsWhitespace).reverse)

/-- Function `gitDiff` from the source: runs `git diff base...head` (whose raw output
`raw` is an oracle input here) and truncates the result to 8000 characters
when longer. -/
def gitDiff (raw : String) : String :=
  if raw.length > 8000 then jsSlice raw 8000 else raw

/-- The command string `gitDiff` hands to `execSync`. -/
def gitDiffCommand (baseSha headSha : String) : String :=
  "git diff " ++ baseSha ++ "..." ++ headSha

/-- An HTTP response to one `fetch` call: `ok` is JS `res.ok`
(status in 200..299), `status` and `text` are the status code and body. -/
structure HttpResp where
  ok : Bool
  status : Nat
  text : String
deriving DecidableEq, Repr

/-- What one completed `postPrComment` call did: either it skipped the HTTP
call (missing GitHub context) or it POSTed `body` to `url`. -/
inductive PostEffect where
  | skipped
  | posted (url : String) (body : String)
deriving DecidableEq, Repr

/-- The fixed title prefixed to every comment body. -/
def commentTitle : String := "## 🤖 AI PR Review Summary\n\n"

/-- The message of the `Error` thrown when the comment POST is not ok. -/
def postError (status : Nat) (text : String) : String :=
  "Failed to post PR comment: " ++ toString status ++ " " ++ text

/-- JS `String(err)` for an `Error` whose message is `msg`. -/
def stringOfError (msg : String) : String := "Error: " ++ msg

/-- Function `postPrComment` from the source. If any of token / repo / PR number is
falsy it warns and returns (no HTTP call). Otherwise it POSTs the titled
markdown to the issue-comments endpoint; a non-ok response throws an
`Error` embedding the status and response body. `resp` is the oracle
response to the `fetch` this call would make. -/
def postPrComment (token repo prNumber : Option String) (markdown : String)
    (resp : HttpResp) : Except String PostEffect :=
  if !truthy token || !truthy repo || !truthy prNumber then
    .ok .skipped
  else
    let url := "https://api.github.com/repos/" ++ repo.getD "" ++ "/issues/"
      ++ prNumber.getD "" ++ "/comments"
    if resp.ok then
      .ok (.posted url (commentTitle ++ markdown))
    else
      .error (postError resp.status resp.text)

/-- The structured summary the chain parses: three lists of bullet strings
(`what_changed`, `risks`, `test_plan`). -/
structure Summary where
  what_changed : List String
  risks : List String
  test_plan : List String
deriving DecidableEq, Repr

/-- The expression `xs.map(x => "- " + x).join("\n")` from the markdown rendering. -/
def bullets (xs : List String) : String :=
  String.intercalate "\n" (xs.map (fun x => "- " ++ x))

/-- The markdown report `md` built in `main` from the structured result. -/
def renderMd (r : Summary) : String :=
  "### What changed\n" ++ bullets r.what_changed
    ++ "\n\n### Potential risks / things to double-check\n" ++ bullets r.risks
    ++ "\n\n### Suggested test plan\n" ++ bullets r.test_plan

/-- The fixed missing-key warning. -/
def missingKeyWarning : String :=
  "⚠️ Missing `COHERE_API_KEY`. Add it as a GitHub Actions secret."

/-- The fixed missing-revision warning. -/
def missingShaWarning : String :=
  "⚠️ Missing `BASE_SHA` or `HEAD_SHA` environment variables."

/-- The fixed prefix of the generation-failure warning. -/
def failureWarningHead : String :=
  "⚠️ AI summary failed (this can happen on trial limits). Error:\n\n`"

/-- The generation-failure warning around the stringified error `e`. -/
def failWarning (e : String) : String := failureWarningHead ++ e ++ "`"

/-- The placeholder handed to the chain when the trimmed diff is empty:
`diff.trim() || "(No diff found.)"`. -/
def noDiffPlaceholder : String := "(No diff found.)"

/-- The external world of one run: the outcome of `execSync("git diff …")`
(`.error` models the subprocess throwing), the outcome of `chain.invoke`
(`.error e` models a rejection, with `e` the `String(err)` form the catch
would compute), and the responses to the first and, if made, second HTTP
POST of the run. -/
structure World where
  execDiff : Except String String
  genResult : Except String Summary
  resp1 : HttpResp
  resp2 : HttpResp
deriving Repr

/-- How a run ends: `process.exit(0)` / normal return, or an unhandled
exception (Node terminates non-zero) carrying the stringified error. -/
inductive ExitStatus where
  | exit0
  | crashed (err : String)
deriving DecidableEq, Repr

/-- The observable behaviour of one run. `published` lists the markdown
arguments passed to `postPrComment` in order (what the spec calls the "published
artifact"); `effects` the effects of the calls that completed without
throwing; `diffCommand` the `execSync` command when diff collection ran;
`generationInvoked` the `diff` input passed to `chain.invoke` when the
generation call was made. -/
structure RunResult where
  published : List String
  effects : List PostEffect
  diffCommand : Option String
  generationInvoked : Option String
  exit : ExitStatus
deriving DecidableEq, Repr

/-- Function `main` from the source, as a function of the environment and the world
oracle.

Control flow mirrors the script: the two missing-configuration checks each
publish a fixed warning and `process.exit(0)`; `gitDiff` runs outside any
handler, so its throw escapes; the `try` block covers both `chain.invoke`
and the publish of the rendered report, and its `catch` publishes a warning
embedding `String(err)` and exits 0. Any `postPrComment` throw outside the
`try` (the warning publishes) escapes `main` and crashes the process. -/
def main (env : Env) (w : World) : RunResult :=
  if !truthy env.COHERE_API_KEY then
    match postPrComment env.GITHUB_TOKEN env.GITHUB_REPOSITORY env.PR_NUMBER
        missingKeyWarning w.resp1 with
    | .ok eff =>
        ⟨[missingKeyWarning], [eff], none, none, .exit0⟩
    | .error e =>
        ⟨[missingKeyWarning], [], none, none, .crashed (stringOfError e)⟩
  else if !truthy env.BASE_SHA || !truthy env.HEAD_SHA then
    match postPrComment env.GITHUB_TOKEN env.GITHUB_REPOSITORY env.PR_NUMBER
        missingShaWarning w.resp1 with
    | .ok eff =>
        ⟨[missingShaWarning], [eff], none, none, .exit0⟩
    | .error e =>
        ⟨[missingShaWarning], [], none, none, .crashed (stringOfError e)⟩
  else
    let cmd := gitDiffCommand (env.BASE_SHA.getD "") (env.HEAD_SHA.getD "")
    match w.execDiff with
    | .error e =>
        ⟨[], [], some cmd, none, .crashed (stringOfError e)⟩
    | .ok raw =>
      let diff := gitDiff raw
      let diffInput := if (jsTrim diff).isEmpty then noDiffPlaceholder else jsTrim diff
      match w.genResult with
      | .ok result =>
        let md := renderMd result
        match postPrComment env.GITHUB_TOKEN env.GITHUB_REPOSITORY env.PR_NUMBER
            md w.resp1 with
        | .ok eff =>
            ⟨[md], [eff], some cmd, some diffInput, .exit0⟩
        | .error e =>
          let warn := failWarning (stringOfError e)
          match postPrComment env.GITHUB_TOKEN env.GITHUB_REPOSITORY env.PR_NUMBER
              warn w.resp2 with
          | .ok eff2 =>
              ⟨[md, warn], [eff2], some cmd, some diffInput, .exit0⟩
          | .error e2 =>
              ⟨[md, warn], [], some cmd, some diffInput,
                .crashed (stringOfError e2)⟩
      | .error gerr =>
        let warn := failWarning gerr
        match postPrComment env.GITHUB_TOKEN env.GITHUB_REPOSITORY env.PR_NUMBER
            warn w.resp1 with
        | .ok eff =>
            ⟨[warn], [eff], some cmd, some diffInput, .exit0⟩
        | .error e2 =>
            ⟨[warn], [], some cmd, some diffInput, .crashed (stringOfError e2)⟩

/-- One section of the report as the spec words it: the fixed heading, then
each list item rendered as a line beginning with `- `. -/
def mdSection (heading : String) (items : List String) : String :=
  heading ++ "\n" ++ String.intercalate "\n" (items.map (fun x => "- " ++ x))

/-- The rendered report as the spec words it: the three lists concatenated
under the three fixed headings, in that order, with a blank line between
sections. Stated from the spec to be compared with `renderMd`, which is
transcribed from the source. -/
def renderMdSpec (r : Summary) : String :=
  mdSection "### What changed" r.what_changed ++ "\n\n"
    ++ mdSection "### Potential risks / things to double-check" r.risks ++ "\n\n"
    ++ mdSection "### Suggested test plan" r.test_plan

/-- Where the job-summary publisher delivered the markdown. -/
inductive SummarySink where
  | stdout (text : String)
  | fileAppend (path : String) (text : String)
deriving DecidableEq, Repr

/-- Modelled from the spec: the job-summary publisher variant, which is not
present under the sources (the shipped script uses only the PR-comment
variant). Per the spec it requires the step-summary file path from the
environment; if absent, it writes the markdown to standard output instead
(console fallback); otherwise it appends the markdown, prefixed with the
same fixed title and preceded by blank lines, to that file. -/
def writeJobSummary (stepSummaryPath : Option String) (markdown : String) :
    SummarySink :=
  match stepSummaryPath with
  | none => .stdout markdown
  | some p => .fileAppend p ("\n\n" ++ commentTitle ++ markdown)

/-- Replace a variable set to the empty string by an unset one. -/
def normVar : Option String → Option String
  | none => none
  | some s => if s.isEmpty then none else some s

/-- Normalise every variable of the environment with `normVar`. -/
def normEnv (e : Env) : Env :=
  ⟨normVar e.COHERE_API_KEY, normVar e.BASE_SHA, normVar e.HEAD_SHA,
    normVar e.GITHUB_TOKEN, normVar e.GITHUB_REPOSITORY, normVar e.PR_NUMBER⟩

/-! ### Helper lemmas -/

lemma truthy_normVar (v : Option String) : truthy (normVar v) = truthy v := by
  cases v with
  | none => rfl
  | some s => by_cases h : s.isEmpty <;> simp [normVar, truthy, h]

lemma normVar_eq_of_truthy {v : Option String} (h : truthy v = true) :
    normVar v = v := by
  cases v with
  | none => rfl
  | some s =>
    simp [truthy] at h
    simp [normVar, h]

lemma postPrComment_ok (token repo pr : Option String) (md : String)
    (resp : HttpResp)
    (h : truthy token = false ∨ truthy repo = false ∨ truthy pr = false
      ∨ resp.ok = true) :
    ∃ eff, postPrComment token repo pr md resp = .ok eff := by
  rcases h with h | h | h | h
  · exact ⟨.skipped, by simp [postPrComment, h]⟩
  · exact ⟨.skipped, by simp [postPrComment, h]⟩
  · exact ⟨.skipped, by simp [postPrComment, h]⟩
  · by_cases h1 : (!truthy token || !truthy repo || !truthy pr) = true
    · exact ⟨.skipped, by simp [postPrComment, h1]⟩
    · exact ⟨.posted ("https://api.github.com/repos/" ++ repo.getD ""
          ++ "/issues/" ++ pr.getD "" ++ "/comments") (commentTitle ++ md),
        by simp [postPrComment, h1, h]⟩

lemma postPrComment_error_resp {token repo pr : Option String} {md : String}
    {resp : HttpResp} {e : String}
    (h : postPrComment token repo pr md resp = .error e) : resp.ok = false := by
  by_cases hr : resp.ok = true
  · exfalso
    by_cases h1 : (!truthy token || !truthy repo || !truthy pr) = true
    · simp [postPrComment, h1] at h
    · simp [postPrComment, h1, hr] at h
  · simpa using hr

/-! ### Claim theorems -/

/-- C3: a diff longer than 8000 characters is truncated by `gitDiff` to
exactly its first 8000 characters (a prefix of the diff), and a diff of
length at most 8000 is returned unchanged. -/
theorem gitDiff_truncates (raw : String) :
    (if 8000 < raw.length then
        gitDiff raw = jsSlice raw 8000 ∧ (gitDiff raw).length = 8000
      else gitDiff raw = raw)
    ∧ (gitDiff raw).data <+: raw.data := by
  constructor
  · by_cases h : 8000 < raw.length
    · rw [if_pos h]
      refine ⟨by simp [gitDiff, h], ?_⟩
      have h2 : gitDiff raw = jsSlice raw 8000 := by simp [gitDiff, h]
      rw [h2]
      show (raw.data.take 8000).length = 8000
      rw [List.length_take]
      have hlen : raw.length = raw.data.length := rfl
      omega
    · rw [if_neg h]
      simp [gitDiff, h]
  · by_cases h : 8000 < raw.length
    · exact ⟨raw.data.drop 8000,
        by simp [gitDiff, h, jsSlice, List.take_append_drop]⟩
    · exact ⟨[], by simp [gitDiff, h]⟩

/-- Witness for C3 at a concrete input: a three-character diff is within
the budget and returned unchanged. -/
theorem gitDiff_truncates_witness :
    gitDiff "abc" = "abc" ∧ (gitDiff "abc").data <+: ("abc" : String).data :=
  ⟨(gitDiff_truncates "abc").1, (gitDiff_truncates "abc").2⟩

/-- C6: if any of the access token, the owner/repo identifier or the
pull-request number is missing, `postPrComment` makes no HTTP call and
returns without raising. -/
theorem postPrComment_missing_context_noop (token repo pr : Option String)
    (md : String) (resp : HttpResp)
    (h : truthy token = false ∨ truthy repo = false ∨ truthy pr = false) :
    postPrComment token repo pr md resp = .ok .skipped := by
  rcases h with h | h | h <;> simp [postPrComment, h]

/-- Witness for C6 at a concrete input: token unset, repo and PR number
present, a responsive server. -/
theorem postPrComment_missing_context_noop_witness :
    (truthy (none : Option String) = false ∨ truthy (some "o/r") = false
      ∨ truthy (some "7") = false)
    ∧ postPrComment none (some "o/r") (some "7") "hello" ⟨true, 200, "ok"⟩
        = .ok .skipped :=
  ⟨by decide,
    postPrComment_missing_context_noop none (some "o/r") (some "7") "hello"
      ⟨true, 200, "ok"⟩ (by decide)⟩

lemma main_normal_generation (env : Env) (w : World) (raw : String)
    (hk : truthy env.COHERE_API_KEY = true) (hb : truthy env.BASE_SHA = true)
    (hh : truthy env.HEAD_SHA = true) (hd : w.execDiff = .ok raw) :
    (main env w).generationInvoked =
      some (if (jsTrim (gitDiff raw)).isEmpty then noDiffPlaceholder
        else jsTrim (gitDiff raw)) := by
  obtain ⟨ed, gr, r1, r2⟩ := w
  replace hd : ed = Except.ok raw := hd
  subst hd
  cases gr with
  | ok s =>
    cases hp : postPrComment env.GITHUB_TOKEN env.GITHUB_REPOSITORY
        env.PR_NUMBER (renderMd s) r1 with
    | ok eff => simp [main, hk, hb, hh, hp]
    | error e =>
      cases hp2 : postPrComment env.GITHUB_TOKEN env.GITHUB_REPOSITORY
          env.PR_NUMBER (failWarning (stringOfError e)) r2 with
      | ok eff2 => simp [main, hk, hb, hh, hp, hp2]
      | error e2 => simp [main, hk, hb, hh, hp, hp2]
  | error ge =>
    cases hp : postPrComment env.GITHUB_TOKEN env.GITHUB_REPOSITORY
        env.PR_NUMBER (failWarning ge) r1 with
    | ok eff => simp [main, hk, hb, hh, hp]
    | error e2 => simp [main, hk, hb, hh, hp]

/-- C7: when the configuration checks pass and the diff text returned by
the version-control invocation is empty, the generator is still invoked,
with the fixed placeholder string as its diff input. -/
theorem emptyDiff_invokes_generator_with_placeholder (env : Env) (w : World)
    (hk : truthy env.COHERE_API_KEY = true) (hb : truthy env.BASE_SHA = true)
    (hh : truthy env.HEAD_SHA = true) (hd : w.execDiff = .ok "") :
    (main env w).generationInvoked = some noDiffPlaceholder := by
  rw [main_normal_generation env w "" hk hb hh hd]
  decide

/-- Witness for C7 at a concrete input: all configuration present and an
empty diff. -/
theorem emptyDiff_invokes_generator_with_placeholder_witness :
    (⟨Except.ok "", Except.ok ⟨[], [], []⟩, ⟨true, 200, ""⟩,
        ⟨true, 200, ""⟩⟩ : World).execDiff = Except.ok ""
    ∧ (main ⟨some "k", some "b", some "h", some "t", some "o/r", some "1"⟩
        ⟨Except.ok "", Except.ok ⟨[], [], []⟩, ⟨true, 200, ""⟩,
          ⟨true, 200, ""⟩⟩).generationInvoked = some noDiffPlaceholder :=
  ⟨rfl, emptyDiff_invokes_generator_with_placeholder
    ⟨some "k", some "b", some "h", some "t", some "o/r", some "1"⟩
    ⟨Except.ok "", Except.ok ⟨[], [], []⟩, ⟨true, 200, ""⟩, ⟨true, 200, ""⟩⟩
    (by decide) (by decide) (by decide) rfl⟩

/-- C4 counterexample: with `COHERE_API_KEY` unset but the GitHub context
present, a non-success response to the warning POST makes the warning
publish throw, and the process crashes instead of terminating with exit
code 0. -/
theorem missingKey_crash_counterexample :
    (main ⟨none, some "b", some "h", some "t", some "o/r", some "1"⟩
        ⟨Except.ok "", Except.ok ⟨[], [], []⟩, ⟨false, 500, "boom"⟩,
          ⟨true, 200, ""⟩⟩).exit
      = .crashed (stringOfError (postError 500 "boom"))
    ∧ (main ⟨none, some "b", some "h", some "t", some "o/r", some "1"⟩
        ⟨Except.ok "", Except.ok ⟨[], [], []⟩, ⟨false, 500, "boom"⟩,
          ⟨true, 200, ""⟩⟩).exit ≠ .exit0 := by decide

/-- C4 amended: provided the warning publish does not raise (some GitHub
context missing, or a successful POST response), an unset or empty
`COHERE_API_KEY` makes the run publish exactly the fixed missing-key
warning, with no diff collection and no generation call, and exit 0;
likewise, with the key present, a missing `BASE_SHA` or `HEAD_SHA` makes
the run publish exactly the fixed missing-revision warning, with no diff
collection and no generation call, and exit 0. -/
theorem missingConfig_publishes_warning (env : Env) (w : World)
    (hpub : truthy env.GITHUB_TOKEN = false
      ∨ truthy env.GITHUB_REPOSITORY = false
      ∨ truthy env.PR_NUMBER = false ∨ w.resp1.ok = true) :
    (truthy env.COHERE_API_KEY = false →
      (main env w).published = [missingKeyWarning]
        ∧ (main env w).diffCommand = none
        ∧ (main env w).generationInvoked = none
        ∧ (main env w).exit = .exit0)
    ∧ (truthy env.COHERE_API_KEY = true →
        (truthy env.BASE_SHA = false ∨ truthy env.HEAD_SHA = false) →
      (main env w).published = [missingShaWarning]
        ∧ (main env w).diffCommand = none
        ∧ (main env w).generationInvoked = none
        ∧ (main env w).exit = .exit0) := by
  constructor
  · intro hk
    obtain ⟨eff, heq⟩ := postPrComment_ok env.GITHUB_TOKEN env.GITHUB_REPOSITORY
      env.PR_NUMBER missingKeyWarning w.resp1 hpub
    simp [main, hk, heq]
  · intro hk hsha
    obtain ⟨eff, heq⟩ := postPrComment_ok env.GITHUB_TOKEN env.GITHUB_REPOSITORY
      env.PR_NUMBER missingShaWarning w.resp1 hpub
    rcases hsha with h | h <;> simp [main, hk, h, heq]

/-- Witness for the amended C4 at a concrete input: the key set to the
empty string, no GitHub context (so the warning publish cannot raise). -/
theorem missingConfig_publishes_warning_witness :
    truthy (some "" : Option String) = false
    ∧ ((main ⟨some "", some "b", some "h", none, none, none⟩
          ⟨Except.ok "", Except.ok ⟨[], [], []⟩, ⟨true, 200, ""⟩,
            ⟨true, 200, ""⟩⟩).published = [missingKeyWarning]
      ∧ (main ⟨some "", some "b", some "h", none, none, none⟩
          ⟨Except.ok "", Except.ok ⟨[], [], []⟩, ⟨true, 200, ""⟩,
            ⟨true, 200, ""⟩⟩).diffCommand = none
      ∧ (main ⟨some "", some "b", some "h", none, none, none⟩
          ⟨Except.ok "", Except.ok ⟨[], [], []⟩, ⟨true, 200, ""⟩,
            ⟨true, 200, ""⟩⟩).generationInvoked = none
      ∧ (main ⟨some "", some "b", some "h", none, none, none⟩
          ⟨Except.ok "", Except.ok ⟨[], [], []⟩, ⟨true, 200, ""⟩,
            ⟨true, 200, ""⟩⟩).exit = .exit0) :=
  ⟨by decide,
    (missingConfig_publishes_warning ⟨some "", some "b", some "h", none, none, none⟩
      ⟨Except.ok "", Except.ok ⟨[], [], []⟩, ⟨true, 200, ""⟩, ⟨true, 200, ""⟩⟩
      (by decide)).1 (by decide)⟩

/-- C5 counterexample: the generation call raises, the GitHub context is
present, and the warning POST gets a non-success response: the warning
publish throws and the process crashes instead of terminating with exit
code 0. -/
theorem genFail_crash_counterexample :
    (main ⟨some "k", some "b", some "h", some "t", some "o/r", some "1"⟩
        ⟨Except.ok "d", Except.error "Error: boom",
          ⟨false, 429, "rate limited"⟩, ⟨true, 200, ""⟩⟩).exit
      = .crashed (stringOfError (postError 429 "rate limited"))
    ∧ (main ⟨some "k", some "b", some "h", some "t", some "o/r", some "1"⟩
        ⟨Except.ok "d", Except.error "Error: boom",
          ⟨false, 429, "rate limited"⟩, ⟨true, 200, ""⟩⟩).exit
      ≠ .exit0 := by decide

/-- C5 amended: when the generation call raises, provided the warning
publish does not raise (some GitHub context missing, or a successful POST
response), the run publishes exactly the fixed failure head followed by
the stringified error text, and exits 0. -/
theorem genFail_publishes_warning (env : Env) (w : World) (raw e : String)
    (hk : truthy env.COHERE_API_KEY = true) (hb : truthy env.BASE_SHA = true)
    (hh : truthy env.HEAD_SHA = true) (hd : w.execDiff = .ok raw)
    (hg : w.genResult = .error e)
    (hpub : truthy env.GITHUB_TOKEN = false
      ∨ truthy env.GITHUB_REPOSITORY = false
      ∨ truthy env.PR_NUMBER = false ∨ w.resp1.ok = true) :
    (main env w).published = [failureWarningHead ++ e ++ "`"]
    ∧ (main env w).exit = .exit0 := by
  obtain ⟨eff, heq⟩ := postPrComment_ok env.GITHUB_TOKEN env.GITHUB_REPOSITORY
    env.PR_NUMBER (failWarning e) w.resp1 hpub
  simp only [failWarning] at heq
  simp [main, hk, hb, hh, hd, hg, heq, failWarning]

/-- Witness for the amended C5 at a concrete input: generation raises,
no GitHub context (so the warning publish cannot raise). -/
theorem genFail_publishes_warning_witness :
    (⟨Except.ok "x", Except.error "Error: boom", ⟨true, 200, ""⟩,
        ⟨true, 200, ""⟩⟩ : World).genResult = Except.error "Error: boom"
    ∧ ((main ⟨some "k", some "b", some "h", none, none, none⟩
          ⟨Except.ok "x", Except.error "Error: boom", ⟨true, 200, ""⟩,
            ⟨true, 200, ""⟩⟩).published
        = [failureWarningHead ++ "Error: boom" ++ "`"]
      ∧ (main ⟨some "k", some "b", some "h", none, none, none⟩
          ⟨Except.ok "x", Except.error "Error: boom", ⟨true, 200, ""⟩,
            ⟨true, 200, ""⟩⟩).exit = .exit0) :=
  ⟨rfl, genFail_publishes_warning
    ⟨some "k", some "b", some "h", none, none, none⟩
    ⟨Except.ok "x", Except.error "Error: boom", ⟨true, 200, ""⟩, ⟨true, 200, ""⟩⟩
    "x" "Error: boom" (by decide) (by decide) (by decide) rfl rfl (by decide)⟩

/-- C8: the rendered markdown report equals, for every structured summary,
the spec-worded rendering: the three lists concatenated under the fixed
headings in order, each list item a line beginning with `- `; in
particular the report starts with the first heading. -/
theorem renderMd_eq_spec (r : Summary) :
    renderMd r = renderMdSpec r
    ∧ ("### What changed\n").data <+: (renderMd r).data := by
  constructor
  · have e1 : "\n\n### Potential risks / things to double-check\n"
        = ("\n\n" : String) ++ "### Potential risks / things to double-check\n" := by
      decide
    have e2 : "\n\n### Suggested test plan\n"
        = ("\n\n" : String) ++ "### Suggested test plan\n" := by decide
    simp [renderMd, renderMdSpec, mdSection, bullets, String.append_assoc]
    rw [e1, e2, String.append_assoc, String.append_assoc]
  · refine ⟨(bullets r.what_changed
        ++ "\n\n### Potential risks / things to double-check\n"
        ++ bullets r.risks ++ "\n\n### Suggested test plan\n"
        ++ bullets r.test_plan).data, ?_⟩
    show ("### What changed\n").data ++ _ = (renderMd r).data
    simp [renderMd, String.data_append, List.append_assoc]

/-- C9: in the job-summary publisher, an unset step-summary path makes the
markdown go to standard output rather than to any file append. -/
theorem jobSummary_stdout_fallback (md : String) :
    writeJobSummary none md = SummarySink.stdout md := rfl

/-- C10: variables set to the empty string behave like unset ones at every
check: every run equals the run under the environment with each empty
variable erased, and the PR-comment publisher likewise cannot tell an
empty token, repo or PR number from a missing one. -/
theorem emptyEnv_behaves_as_unset :
    (∀ (env : Env) (w : World), main env w = main (normEnv env) w)
    ∧ ∀ (token repo pr : Option String) (md : String) (resp : HttpResp),
        postPrComment token repo pr md resp
          = postPrComment (normVar token) (normVar repo) (normVar pr) md resp := by
  have hpost : ∀ (token repo pr : Option String) (md : String) (resp : HttpResp),
      postPrComment (normVar token) (normVar repo) (normVar pr) md resp
        = postPrComment token repo pr md resp := by
    intro token repo pr md resp
    by_cases h1 : truthy token = true
    · by_cases h2 : truthy repo = true
      · by_cases h3 : truthy pr = true
        · simp [postPrComment, truthy_normVar, h1, h2, h3,
            normVar_eq_of_truthy h1, normVar_eq_of_truthy h2,
            normVar_eq_of_truthy h3]
        · simp [postPrComment, truthy_normVar, h1, h2, h3]
      · simp [postPrComment, truthy_normVar, h1, h2]
    · simp [postPrComment, truthy_normVar, h1]
  constructor
  · intro env w
    by_cases hk : truthy env.COHERE_API_KEY = true
    · by_cases hb : truthy env.BASE_SHA = true
      · by_cases hh : truthy env.HEAD_SHA = true
        · simp [main, normEnv, truthy_normVar, hk, hb, hh, hpost,
            normVar_eq_of_truthy hb, normVar_eq_of_truthy hh]
        · simp [main, normEnv, truthy_normVar, hk, hb, hh, hpost]
      · simp [main, normEnv, truthy_normVar, hk, hb, hpost]
    · simp [main, normEnv, truthy_normVar, hk, hpost]
  · intro token repo pr md resp
    exact (hpost token repo pr md resp).symm

/-- C1 counterexample: a run that reaches the publish of the rendered
report and gets a non-success response to the HTTPS comment post has that
error caught by the surrounding handler: the run publishes a failure
warning and exits 0 instead of letting the error propagate as fatal
process termination. -/
theorem reportPostFailure_caught_counterexample :
    (main ⟨some "k", some "b", some "h", some "t", some "o/r", some "1"⟩
        ⟨Except.ok "d", Except.ok ⟨["a"], ["b"], ["c"]⟩,
          ⟨false, 403, "forbidden"⟩, ⟨true, 200, ""⟩⟩).exit = .exit0
    ∧ (main ⟨some "k", some "b", some "h", some "t", some "o/r", some "1"⟩
        ⟨Except.ok "d", Except.ok ⟨["a"], ["b"], ["c"]⟩,
          ⟨false, 403, "forbidden"⟩, ⟨true, 200, ""⟩⟩).published
      = [renderMd ⟨["a"], ["b"], ["c"]⟩,
         failWarning (stringOfError (postError 403 "forbidden"))] := by decide

/-- C1 amended: when the run reaches the publish of the rendered report and
the HTTPS comment post fails (non-success status), the error is caught by
the surrounding handler, which publishes a failure warning embedding the
error; the run exits 0 when that warning publish succeeds, and the error
propagates as fatal process termination only when the warning publish
itself raises. -/
theorem reportPostFailure_degraded (env : Env) (w : World) (raw : String)
    (s : Summary)
    (hk : truthy env.COHERE_API_KEY = true) (hb : truthy env.BASE_SHA = true)
    (hh : truthy env.HEAD_SHA = true) (hd : w.execDiff = .ok raw)
    (hg : w.genResult = .ok s)
    (ht : truthy env.GITHUB_TOKEN = true)
    (hr : truthy env.GITHUB_REPOSITORY = true)
    (hp : truthy env.PR_NUMBER = true) (hfail : w.resp1.ok = false) :
    (main env w).published
        = [renderMd s,
           failWarning (stringOfError (postError w.resp1.status w.resp1.text))]
    ∧ (main env w).exit
        = (if w.resp2.ok = true then ExitStatus.exit0
            else .crashed (stringOfError (postError w.resp2.status w.resp2.text))) := by
  have hpost1 : postPrComment env.GITHUB_TOKEN env.GITHUB_REPOSITORY
      env.PR_NUMBER (renderMd s) w.resp1
      = .error (postError w.resp1.status w.resp1.text) := by
    simp [postPrComment, ht, hr, hp, hfail]
  by_cases h2 : w.resp2.ok = true
  · obtain ⟨eff, hpost2⟩ := postPrComment_ok env.GITHUB_TOKEN
      env.GITHUB_REPOSITORY env.PR_NUMBER
      (failWarning (stringOfError (postError w.resp1.status w.resp1.text)))
      w.resp2 (Or.inr (Or.inr (Or.inr h2)))
    simp [main, hk, hb, hh, hd, hg, hpost1, hpost2, h2]
  · replace h2 : w.resp2.ok = false := by simpa using h2
    have hpost2 : postPrComment env.GITHUB_TOKEN env.GITHUB_REPOSITORY
        env.PR_NUMBER
        (failWarning (stringOfError (postError w.resp1.status w.resp1.text)))
        w.resp2 = .error (postError w.resp2.status w.resp2.text) := by
      simp [postPrComment, ht, hr, hp, h2]
    simp [main, hk, hb, hh, hd, hg, hpost1, hpost2, h2]

/-- Witness for the amended C1 at a concrete input: full configuration, a
failing report POST, a successful warning POST. -/
theorem reportPostFailure_degraded_witness :
    (⟨Except.ok "d", Except.ok ⟨["a"], ["b"], ["c"]⟩, ⟨false, 403, "forbidden"⟩,
        ⟨true, 200, ""⟩⟩ : World).resp1.ok = false
    ∧ ((main ⟨some "k", some "b", some "h", some "t", some "o/r", some "1"⟩
          ⟨Except.ok "d", Except.ok ⟨["a"], ["b"], ["c"]⟩,
            ⟨false, 403, "forbidden"⟩, ⟨true, 200, ""⟩⟩).published
        = [renderMd ⟨["a"], ["b"], ["c"]⟩,
           failWarning (stringOfError (postError 403 "forbidden"))]
      ∧ (main ⟨some "k", some "b", some "h", some "t", some "o/r", some "1"⟩
          ⟨Except.ok "d", Except.ok ⟨["a"], ["b"], ["c"]⟩,
            ⟨false, 403, "forbidden"⟩, ⟨true, 200, ""⟩⟩).exit
        = ExitStatus.exit0) :=
  ⟨rfl, reportPostFailure_degraded
    ⟨some "k", some "b", some "h", some "t", some "o/r", some "1"⟩
    ⟨Except.ok "d", Except.ok ⟨["a"], ["b"], ["c"]⟩, ⟨false, 403, "forbidden"⟩,
      ⟨true, 200, ""⟩⟩
    "d" ⟨["a"], ["b"], ["c"]⟩ (by decide) (by decide) (by decide) rfl rfl
    (by decide) (by decide) (by decide) rfl⟩

/-- C2 counterexample: a run with full configuration and successful HTTP
responses whose diff subprocess throws crashes with a non-zero exit - diff
collection causes a non-zero exit without any publish step failing (none
even runs). -/
theorem diffCollectionFail_crash_counterexample :
    (main ⟨some "k", some "b", some "h", some "t", some "o/r", some "1"⟩
        ⟨Except.error "fatal: bad revision", Except.ok ⟨[], [], []⟩,
          ⟨true, 200, ""⟩, ⟨true, 200, ""⟩⟩).exit
      = .crashed (stringOfError "fatal: bad revision")
    ∧ (main ⟨some "k", some "b", some "h", some "t", some "o/r", some "1"⟩
        ⟨Except.error "fatal: bad revision", Except.ok ⟨[], [], []⟩,
          ⟨true, 200, ""⟩, ⟨true, 200, ""⟩⟩).published = []
    ∧ (main ⟨some "k", some "b", some "h", some "t", some "o/r", some "1"⟩
        ⟨Except.error "fatal: bad revision", Except.ok ⟨[], [], []⟩,
          ⟨true, 200, ""⟩, ⟨true, 200, ""⟩⟩).exit ≠ .exit0 := by decide

/-- C2 amended: the process exit code is 0 on every run, except when an
unhandled exception escapes a publish step (an HTTPS POST answered with a
non-success status) or the diff-collection step (the subprocess throwing):
every run either exits 0 or had a failing diff subprocess or a non-success
HTTP response. -/
theorem exit_zero_unless_publish_or_diff (env : Env) (w : World) :
    (main env w).exit = ExitStatus.exit0
    ∨ (∃ e, w.execDiff = Except.error e)
    ∨ w.resp1.ok = false ∨ w.resp2.ok = false := by
  obtain ⟨ed, gr, r1, r2⟩ := w
  rcases ed with e | raw
  · exact Or.inr (Or.inl ⟨e, rfl⟩)
  · by_cases h1 : r1.ok = true
    · by_cases h2 : r2.ok = true
      · left
        by_cases hk : truthy env.COHERE_API_KEY = true
        · by_cases hbh : (!truthy env.BASE_SHA || !truthy env.HEAD_SHA) = true
          · obtain ⟨eff, heq⟩ := postPrComment_ok env.GITHUB_TOKEN
              env.GITHUB_REPOSITORY env.PR_NUMBER missingShaWarning r1
              (Or.inr (Or.inr (Or.inr h1)))
            simp [main, hk, hbh, heq]
          · cases gr with
            | ok s =>
              obtain ⟨eff, heq⟩ := postPrComment_ok env.GITHUB_TOKEN
                env.GITHUB_REPOSITORY env.PR_NUMBER (renderMd s) r1
                (Or.inr (Or.inr (Or.inr h1)))
              simp [main, hk, hbh, heq]
            | error ge =>
              obtain ⟨eff, heq⟩ := postPrComment_ok env.GITHUB_TOKEN
                env.GITHUB_REPOSITORY env.PR_NUMBER (failWarning ge) r1
                (Or.inr (Or.inr (Or.inr h1)))
              simp [main, hk, hbh, heq]
        · obtain ⟨eff, heq⟩ := postPrComment_ok env.GITHUB_TOKEN
            env.GITHUB_REPOSITORY env.PR_NUMBER missingKeyWarning r1
            (Or.inr (Or.inr (Or.inr h1)))
          simp [main, hk, heq]
      · exact Or.inr (Or.inr (Or.inr (by simpa using h2)))
    · exact Or.inr (Or.inr (Or.inl (by simpa using h1)))

end AiPrSummary
